import Mathlib

/-! Shallow embedding of the x402chainpay repository.

Server side (src/server/index.ts): in-memory session store (a JS `Map` from
session id to `Session`, modelled as an insertion-ordered association list),
bounded payment history, the purchase handlers `POST /api/pay/session` and
`POST /api/pay/onetime`, and the validation handler `GET /api/session/:sessionId`.
Timestamps are milliseconds since the epoch (`Date.getTime()`), modelled as `Nat`.

Client side (src/client/src/contexts/WalletContext.tsx): the `connectWallet`
callback, modelled as a pure function from the injected-provider environment to
the sequence of React state-setter invocations and the sequence of provider RPC
requests it issues. -/

/-- Grant tier: the literal union type `"24hour" | "onetime"` of the source. -/
inductive SessionType where
  | h24
  | onetime
  deriving DecidableEq, Repr

/-- Free-form `Record<string, unknown>` metadata, modelled as key/value pairs. -/
abbrev PayMetadata := List (String × String)

/-- `interface Session` of src/server/index.ts. `used` is `boolean | undefined`
(absent for 24-hour sessions; starts `false` for one-time sessions). -/
structure Session where
  id : String
  createdAt : Nat
  expiresAt : Nat
  type : SessionType
  used : Option Bool := none
  walletAddress : Option String := none
  transactionHash : Option String := none
  deriving DecidableEq, Repr

/-- `interface PaymentRecord` of src/server/index.ts. -/
structure PaymentRecord where
  id : String
  type : SessionType
  amountUsd : ℚ
  walletAddress : Option String := none
  transactionHash : Option String := none
  metadata : Option PayMetadata := none
  createdAt : Nat
  deriving DecidableEq, Repr

/-- `const MAX_PAYMENT_HISTORY = 100`. -/
def MAX_PAYMENT_HISTORY : Nat := 100

/-- `Map.get`: lookup in the insertion-ordered association list modelling the
`sessions` Map. -/
def mapGet (m : List (String × Session)) (k : String) : Option Session :=
  match m with
  | [] => none
  | (k2, v) :: rest => if k2 = k then some v else mapGet rest k

/-- `Map.set`: overwrite an existing key in place, or append a new key at the
end (JS Maps preserve insertion order). -/
def mapSet (m : List (String × Session)) (k : String) (v : Session) :
    List (String × Session) :=
  match m with
  | [] => [(k, v)]
  | (k2, v2) :: rest => if k2 = k then (k, v) :: rest else (k2, v2) :: mapSet rest k v

/-- The whole mutable server state: `const sessions = new Map(...)` and
`const payments: PaymentRecord[] = []`. -/
structure ServerState where
  sessions : List (String × Session)
  payments : List PaymentRecord
  deriving DecidableEq, Repr

/-- `interface PaymentRequestPayload` of src/server/index.ts. -/
structure PaymentRequestPayload where
  walletAddress : Option String := none
  transactionHash : Option String := none
  metadata : Option PayMetadata := none
  deriving DecidableEq, Repr

/-- `parsePaymentRequest(c, fallback)`: `c.req.json()` either parses to a
payload (`some parsed`) or throws (`none`); on throw the fallback is returned. -/
def parsePaymentRequest {T : Type} (parsed : Option T) (fallback : T) : T :=
  parsed.getD fallback

/-- `recordPayment(entry)`: push at the tail, then `shift()` (drop the head)
once the length exceeds `MAX_PAYMENT_HISTORY`. -/
def recordPayment (payments : List PaymentRecord) (entry : PaymentRecord) :
    List PaymentRecord :=
  let ps := payments ++ [entry]
  if MAX_PAYMENT_HISTORY < ps.length then ps.drop 1 else ps

/-- The JSON body returned by the two purchase endpoints: `success`, `sessionId`,
`message`, the redacted session/access view, and the `payment` echo. The
`/api/pay/onetime` access view carries no `expiresAt` field, hence the Option. -/
structure PayResponse where
  success : Bool
  sessionId : String
  message : String
  viewId : String
  viewType : SessionType
  viewCreatedAt : Nat
  viewExpiresAt : Option Nat := none
  validFor : String
  viewWalletAddress : Option String := none
  viewTransactionHash : Option String := none
  payAmountUsd : ℚ
  payWalletAddress : Option String := none
  payTransactionHash : Option String := none
  payMetadata : Option PayMetadata := none
  deriving DecidableEq, Repr

/-- `app.post("/api/pay/session")`: 24-hour session purchase. The fresh uuid
`sessionId` and the current time `now` are inputs (external nondeterminism);
`parsed` is the body-parse result fed to `parsePaymentRequest`. -/
def paySession (st : ServerState) (parsed : Option PaymentRequestPayload)
    (sessionId : String) (now : Nat) : ServerState × PayResponse :=
  let body := parsePaymentRequest parsed {}
  let expiresAt := now + 24 * 60 * 60 * 1000
  let session : Session :=
    { id := sessionId, createdAt := now, expiresAt := expiresAt, type := .h24,
      walletAddress := body.walletAddress, transactionHash := body.transactionHash }
  let st2 : ServerState :=
    { sessions := mapSet st.sessions sessionId session,
      payments := recordPayment st.payments
        { id := sessionId, type := .h24, amountUsd := 1,
          walletAddress := body.walletAddress,
          transactionHash := body.transactionHash,
          metadata := body.metadata, createdAt := now } }
  (st2,
   { success := true, sessionId := sessionId, message := "24-hour access granted!",
     viewId := sessionId, viewType := .h24, viewCreatedAt := now,
     viewExpiresAt := some expiresAt, validFor := "24 hours",
     viewWalletAddress := session.walletAddress,
     viewTransactionHash := session.transactionHash,
     payAmountUsd := 1, payWalletAddress := body.walletAddress,
     payTransactionHash := body.transactionHash, payMetadata := body.metadata })

/-- `app.post("/api/pay/onetime")`: single-use purchase ($0.10, 5-minute
lifetime, `used` initialised to `false`). -/
def payOnetime (st : ServerState) (parsed : Option PaymentRequestPayload)
    (sessionId : String) (now : Nat) : ServerState × PayResponse :=
  let body := parsePaymentRequest parsed {}
  let session : Session :=
    { id := sessionId, createdAt := now, expiresAt := now + 5 * 60 * 1000,
      type := .onetime, used := some false,
      walletAddress := body.walletAddress, transactionHash := body.transactionHash }
  let st2 : ServerState :=
    { sessions := mapSet st.sessions sessionId session,
      payments := recordPayment st.payments
        { id := sessionId, type := .onetime, amountUsd := 1 / 10,
          walletAddress := body.walletAddress,
          transactionHash := body.transactionHash,
          metadata := body.metadata, createdAt := now } }
  (st2,
   { success := true, sessionId := sessionId, message := "One-time access granted!",
     viewId := sessionId, viewType := .onetime, viewCreatedAt := now,
     viewExpiresAt := none, validFor := "5 minutes (single use)",
     viewWalletAddress := session.walletAddress,
     viewTransactionHash := session.transactionHash,
     payAmountUsd := 1 / 10, payWalletAddress := body.walletAddress,
     payTransactionHash := body.transactionHash, payMetadata := body.metadata })

/-- The session snapshot embedded in validation responses. The invalid branch
includes `used` and `expiresAt`; the valid branch includes `remainingTime`
instead of `used`. Absent JSON fields are `none`. -/
structure SessionView where
  id : String
  type : SessionType
  createdAt : Nat
  expiresAt : Option Nat := none
  used : Option Bool := none
  remainingTime : Option Int := none
  walletAddress : Option String := none
  transactionHash : Option String := none
  deriving DecidableEq, Repr

/-- The JSON body plus HTTP status returned by `GET /api/session/:sessionId`. -/
structure ValidateResponse where
  status : Nat
  valid : Bool
  error : Option String := none
  sessionView : Option SessionView := none
  deriving DecidableEq, Repr

/-- The session snapshot of the invalid (expired/used) branch: includes `used`,
no `remainingTime`. -/
def invalidView (session : Session) : SessionView :=
  { id := session.id, type := session.type, createdAt := session.createdAt,
    expiresAt := some session.expiresAt, used := session.used,
    walletAddress := session.walletAddress,
    transactionHash := session.transactionHash }

/-- The session snapshot of the valid branch: includes
`remainingTime = expiresAt.getTime() - now.getTime()`, no `used`. -/
def validView (session : Session) (now : Nat) : SessionView :=
  { id := session.id, type := session.type, createdAt := session.createdAt,
    expiresAt := some session.expiresAt,
    remainingTime := some ((session.expiresAt : Int) - (now : Int)),
    walletAddress := session.walletAddress,
    transactionHash := session.transactionHash }

/-- `app.get("/api/session/:sessionId")`: validation. Looks up the session;
404 when absent; when found, `isExpired = now > expiresAt` and
`isUsed = (type === "onetime" && used)`; if either holds, an HTTP-200
`valid:false` response with the expiry reason taking priority, no mutation;
otherwise a one-time session is marked used before the `valid:true` response. -/
def validateSession (st : ServerState) (sessionId : String) (now : Nat) :
    ServerState × ValidateResponse :=
  match mapGet st.sessions sessionId with
  | none => (st, { status := 404, valid := false, error := some "Session not found" })
  | some session =>
    if session.expiresAt < now ∨ (session.type = .onetime ∧ session.used = some true) then
      (st,
       { status := 200, valid := false,
         error := some (if session.expiresAt < now then "Session expired"
                        else "One-time access already used"),
         sessionView := some (invalidView session) })
    else
      let st2 : ServerState :=
        if session.type = .onetime then
          { st with sessions := mapSet st.sessions sessionId { session with used := some true } }
        else st
      (st2,
       { status := 200, valid := true,
         sessionView := some (validView session now) })

/-- Run a sequence of validation calls, threading the server state and pairing
each query with its response. -/
def runValidations (st : ServerState) (qs : List (String × Nat)) :
    ServerState × List ((String × Nat) × ValidateResponse) :=
  match qs with
  | [] => (st, [])
  | q :: rest =>
    let r := validateSession st q.1 q.2
    let tail := runValidations r.1 rest
    (tail.1, (q, r.2) :: tail.2)

/-- How many of the recorded responses for queries on `id` were `valid`. -/
def validCountFor (id : String) (l : List ((String × Nat) × ValidateResponse)) : Nat :=
  l.countP (fun x => x.1.1 == id && x.2.valid)

/-- The grant stored at `id` is a one-time (SingleUse) grant. -/
def onetimeAt (st : ServerState) (id : String) : Prop :=
  ∃ s, mapGet st.sessions id = some s ∧ s.type = SessionType.onetime

/-- The grant stored at `id` is a one-time grant already marked used. -/
def consumedAt (st : ServerState) (id : String) : Prop :=
  ∃ s, mapGet st.sessions id = some s ∧ s.type = SessionType.onetime ∧
    s.used = some true

/-! Client side: src/client/src/contexts/WalletContext.tsx. -/

/-- A provider RPC error: `{ code?, message? }`. -/
structure RpcErr where
  code : Option Int := none
  message : Option String := none
  deriving DecidableEq, Repr

deriving instance DecidableEq for Except

/-- The injected provider as an oracle: the result each RPC request would
return if issued during this `connectWallet` call. -/
structure ProviderEnv where
  requestAccounts : Except RpcErr (List String)
  chainIdResult : Except RpcErr String
  switchChain : Except RpcErr Unit
  addChain : Except RpcErr Unit
  deriving DecidableEq, Repr

/-- `window.ethereum`: `undefined`, a single provider, an array of providers
(the code uses `ethereum[0]`), or an object with a `providers` array (the code
uses `ethereum.providers[0]`). Only the selected first element matters. -/
inductive InjectedEthereum where
  | undef
  | single (p : ProviderEnv)
  | firstOfArray (p : ProviderEnv)
  | firstOfProviders (p : ProviderEnv)
  deriving DecidableEq, Repr

/-- The provider-selection step of `connectWallet`: `none` when
`typeof window.ethereum === "undefined"`, otherwise the first provider. -/
def selectProvider : InjectedEthereum → Option ProviderEnv
  | .undef => none
  | .single p => some p
  | .firstOfArray p => some p
  | .firstOfProviders p => some p

/-- The RPC requests `connectWallet` can issue, in the vocabulary of the code. -/
inductive RpcCall where
  | ethRequestAccounts
  | ethChainId
  | walletSwitchEthereumChain
  | walletAddEthereumChain
  deriving DecidableEq, Repr

/-- `String.includes(pat)`: substring test via `splitOn` (more than one piece
iff the pattern occurs). -/
def strIncludes (s pat : String) : Bool := 1 < (s.splitOn pat).length

/-- `message?.includes(pat)` on an optional message. -/
def optMsgIncludes (m : Option String) (pat : String) : Bool :=
  match m with
  | none => false
  | some s => strIncludes s pat

/-- `const monadTestnetChainIdHex = "0x279F"`. -/
def MONAD_CHAIN_ID_HEX : String := "0x279F"

/-- The try-block of `connectWallet` (provider selection through client
creation), returning the RPC requests issued in order, and either the bound
account address or the thrown error message (all throws in the source are
`new Error(msg)`, so the catch-block surfaces exactly `msg`). -/
def connectAttempt (eth : InjectedEthereum) : List RpcCall × Except String String :=
  match selectProvider eth with
  | none => ([], .error "请安装 MetaMask 或其他以太坊钱包扩展")
  | some p =>
    match p.requestAccounts with
    | .error e =>
      ([.ethRequestAccounts],
       .error
         (if e.code = some 4001 ∨ optMsgIncludes e.message "rejected"
             ∨ optMsgIncludes e.message "denied" then
            "用户取消了连接请求"
          else
            match e.message with
            | some m => "连接失败: " ++ m
            | none => "无法连接到钱包，请确保钱包扩展已启用"))
    | .ok accounts =>
      match accounts with
      | [] => ([.ethRequestAccounts], .error "未找到账户，请在钱包中创建或导入账户")
      | a0 :: _ =>
        match p.chainIdResult with
        | .error _ => ([.ethRequestAccounts, .ethChainId], .error "无法获取当前网络信息")
        | .ok chainId =>
          if chainId = MONAD_CHAIN_ID_HEX then
            ([.ethRequestAccounts, .ethChainId], .ok a0)
          else
            match p.switchChain with
            | .ok _ =>
              ([.ethRequestAccounts, .ethChainId, .walletSwitchEthereumChain], .ok a0)
            | .error se =>
              if se.code = some 4902 then
                match p.addChain with
                | .ok _ =>
                  ([.ethRequestAccounts, .ethChainId, .walletSwitchEthereumChain,
                    .walletAddEthereumChain], .ok a0)
                | .error ae =>
                  ([.ethRequestAccounts, .ethChainId, .walletSwitchEthereumChain,
                    .walletAddEthereumChain],
                   .error (if ae.code = some 4001 then "用户取消了添加网络请求"
                           else "无法添加 Monad Testnet 网络到钱包"))
              else if se.code = some 4001 then
                ([.ethRequestAccounts, .ethChainId, .walletSwitchEthereumChain],
                 .error "用户取消了切换网络请求")
              else
                ([.ethRequestAccounts, .ethChainId, .walletSwitchEthereumChain],
                 .error ("切换网络失败: " ++
                   match se.message with
                   | some m => if m = "" then "未知错误" else m
                   | none => "未知错误"))

/-- The React state-setter invocations of the `WalletProvider` component.
`setWalletClient true` stands for binding a fresh viem wallet client,
`setWalletClient false` for `setWalletClient(null)`. -/
inductive SetterCall where
  | setError (v : Option String)
  | setIsConnecting (v : Bool)
  | setAddress (v : Option String)
  | setIsConnected (v : Bool)
  | setWalletClient (v : Bool)
  deriving DecidableEq, Repr

/-- The connection state held by the `WalletProvider` hooks. -/
structure WalletState where
  isConnected : Bool := false
  address : Option String := none
  hasClient : Bool := false
  error : Option String := none
  isConnecting : Bool := false
  deriving DecidableEq, Repr

/-- `connectWallet` as the sequence of setter invocations and RPC requests it
performs. It takes the wallet state current when the call starts, but the
source callback (`useCallback(..., [])`) reads none of it — in particular it
never checks `isConnecting` — so the result ignores `s`. Order in the source:
`setError(null)`; `setIsConnecting(true)`; the try-block (`connectAttempt`);
on success `setWalletClient`/`setAddress`/`setIsConnected`, on caught error
`setError(message)`; finally `setIsConnecting(false)`. -/
def connectWallet (eth : InjectedEthereum) (s : WalletState) :
    List SetterCall × List RpcCall :=
  let _ := s
  let att := connectAttempt eth
  let mid : List SetterCall :=
    match att.2 with
    | .ok a0 => [.setWalletClient true, .setAddress (some a0), .setIsConnected true]
    | .error msg => [.setError (some msg)]
  ([.setError none, .setIsConnecting true] ++ mid ++ [.setIsConnecting false], att.1)

/-- Apply one React state-setter to the wallet state. -/
def applySetter (s : WalletState) : SetterCall → WalletState
  | .setError v => { s with error := v }
  | .setIsConnecting v => { s with isConnecting := v }
  | .setAddress v => { s with address := v }
  | .setIsConnected v => { s with isConnected := v }
  | .setWalletClient v => { s with hasClient := v }

/-- Apply a sequence of setter invocations in order. -/
def applySetters (s : WalletState) (l : List SetterCall) : WalletState :=
  l.foldl applySetter s

/-- Count the occurrences of one RPC request kind in a request trace. -/
def countCalls (c : RpcCall) (l : List RpcCall) : Nat :=
  l.countP (fun x => x == c)

/-! Concrete fixtures used to instantiate the theorems. -/

/-- A fresh one-time session: created at 0, expires at 1000, not yet used. -/
def sampleOnetime : Session :=
  { id := "s1", createdAt := 0, expiresAt := 1000, type := .onetime, used := some false }

/-- A 24-hour session created at 0, expiring at 2000 (scaled-down lifetime). -/
def sampleH24 : Session :=
  { id := "s2", createdAt := 0, expiresAt := 2000, type := .h24 }

/-- A server state holding one fresh one-time grant and one timed grant. -/
def sampleState : ServerState :=
  { sessions := [("s1", sampleOnetime), ("s2", sampleH24)], payments := [] }

/-- The one-time session after its first successful validation. -/
def consumedOnetime : Session := { sampleOnetime with used := some true }

/-- A server state whose one grant is an already-consumed one-time grant. -/
def consumedState : ServerState :=
  { sessions := [("s1", consumedOnetime)], payments := [] }

/-- A concrete ledger entry. -/
def samplePayment : PaymentRecord :=
  { id := "p1", type := .h24, amountUsd := 1, createdAt := 0 }

/-- A second concrete ledger entry, appended in witnesses. -/
def samplePayment2 : PaymentRecord :=
  { id := "p2", type := .onetime, amountUsd := 1 / 10, createdAt := 5 }

/-- A full ledger: exactly `MAX_PAYMENT_HISTORY` entries. -/
def fullLedger : List PaymentRecord := List.replicate 100 samplePayment

/-- A provider already on Monad Testnet that grants one account. -/
def okProvider : ProviderEnv :=
  { requestAccounts := .ok ["0xabc"], chainIdResult := .ok "0x279F",
    switchChain := .ok (), addChain := .ok () }

/-- A provider on another chain that rejects the switch with the
unrecognized-chain code 4902 and accepts the add-network request. -/
def unknownChainProvider : ProviderEnv :=
  { requestAccounts := .ok ["0xabc"], chainIdResult := .ok "0x1",
    switchChain := .error { code := some 4902 }, addChain := .ok () }

/-! Helper lemmas about the store and the validation handler. -/

theorem mapGet_mapSet_self (m : List (String × Session)) (k : String) (v : Session) :
    mapGet (mapSet m k v) k = some v := by
  induction m with
  | nil => simp [mapSet, mapGet]
  | cons hd tl ih =>
    obtain ⟨k2, v2⟩ := hd
    by_cases h : k2 = k
    · simp [mapSet, mapGet, h]
    · simp [mapSet, mapGet, h, ih]

theorem mapGet_mapSet_ne (m : List (String × Session)) (k k2 : String) (v : Session)
    (h : k2 ≠ k) : mapGet (mapSet m k v) k2 = mapGet m k2 := by
  induction m with
  | nil => simp [mapSet, mapGet, Ne.symm h]
  | cons hd tl ih =>
    obtain ⟨k3, v3⟩ := hd
    by_cases h3 : k3 = k
    · subst h3
      simp [mapSet, mapGet, Ne.symm h]
    · by_cases h4 : k3 = k2
      · simp [mapSet, mapGet, h3, h4, h]
      · simp [mapSet, mapGet, h3, h4, ih]

theorem validateSession_not_found (st : ServerState) (id : String) (now : Nat)
    (h : mapGet st.sessions id = none) :
    validateSession st id now =
      (st, { status := 404, valid := false, error := some "Session not found" }) := by
  simp [validateSession, h]

theorem validateSession_invalid (st : ServerState) (id : String) (now : Nat)
    (s : Session) (h : mapGet st.sessions id = some s)
    (hc : s.expiresAt < now ∨ (s.type = .onetime ∧ s.used = some true)) :
    validateSession st id now =
      (st, { status := 200, valid := false,
             error := some (if s.expiresAt < now then "Session expired"
                            else "One-time access already used"),
             sessionView := some (invalidView s) }) := by
  simp [validateSession, h, hc]

theorem validateSession_valid_h24 (st : ServerState) (id : String) (now : Nat)
    (s : Session) (h : mapGet st.sessions id = some s)
    (hs : s.type = .h24) (hexp : ¬ s.expiresAt < now) :
    validateSession st id now =
      (st, { status := 200, valid := true, sessionView := some (validView s now) }) := by
  have hc : ¬ (s.expiresAt < now ∨ (s.type = .onetime ∧ s.used = some true)) := by
    rintro (h1 | ⟨h2, _⟩)
    · exact hexp h1
    · rw [hs] at h2; cases h2
  simp [validateSession, h, hc, hs]
  exact Nat.le_of_not_lt hexp

theorem validateSession_valid_onetime (st : ServerState) (id : String) (now : Nat)
    (s : Session) (h : mapGet st.sessions id = some s)
    (hs : s.type = .onetime) (hexp : ¬ s.expiresAt < now)
    (hu : ¬ s.used = some true) :
    validateSession st id now =
      ({ st with sessions := mapSet st.sessions id { s with used := some true } },
       { status := 200, valid := true, sessionView := some (validView s now) }) := by
  have hc : ¬ (s.expiresAt < now ∨ (s.type = .onetime ∧ s.used = some true)) := by
    rintro (h1 | ⟨_, h3⟩)
    · exact hexp h1
    · exact hu h3
  simp [validateSession, h, hc, hs]
  exact ⟨Nat.le_of_not_lt hexp, hu⟩

theorem validateSession_payments (st : ServerState) (id : String) (now : Nat) :
    (validateSession st id now).1.payments = st.payments := by
  cases hm : mapGet st.sessions id with
  | none => simp [validateSession, hm]
  | some s =>
    by_cases hc : s.expiresAt < now ∨ (s.type = .onetime ∧ s.used = some true)
    · simp [validateSession, hm, hc]
    · have hexp : ¬ s.expiresAt < now := fun ha => hc (Or.inl ha)
      by_cases ht : s.type = .onetime
      · have hu : ¬ s.used = some true := fun h2 => hc (Or.inr ⟨ht, h2⟩)
        simp [validateSession, hm, hexp, hu, ht]
      · simp [validateSession, hm, hexp, ht]

theorem validateSession_other_id (st : ServerState) (id id2 : String) (now : Nat)
    (h : id2 ≠ id) :
    mapGet (validateSession st id now).1.sessions id2 = mapGet st.sessions id2 := by
  cases hm : mapGet st.sessions id with
  | none => simp [validateSession, hm]
  | some s =>
    by_cases hc : s.expiresAt < now ∨ (s.type = .onetime ∧ s.used = some true)
    · simp [validateSession, hm, hc]
    · have hexp : ¬ s.expiresAt < now := fun ha => hc (Or.inl ha)
      by_cases ht : s.type = .onetime
      · have hu : ¬ s.used = some true := fun h2 => hc (Or.inr ⟨ht, h2⟩)
        simp [validateSession, hm, hexp, hu, ht, mapGet_mapSet_ne _ _ _ _ h]
      · simp [validateSession, hm, hexp, ht]

theorem validateSession_state_of_not_valid (st : ServerState) (id : String) (now : Nat)
    (h : (validateSession st id now).2.valid = false) :
    (validateSession st id now).1 = st := by
  cases hm : mapGet st.sessions id with
  | none => simp [validateSession, hm]
  | some s =>
    by_cases hc : s.expiresAt < now ∨ (s.type = .onetime ∧ s.used = some true)
    · simp [validateSession, hm, hc]
    · exfalso
      simp [validateSession, hm, hc] at h

theorem validateSession_consumes (st : ServerState) (id : String) (now : Nat)
    (s : Session) (hm : mapGet st.sessions id = some s)
    (ht : s.type = .onetime)
    (hv : (validateSession st id now).2.valid = true) :
    consumedAt (validateSession st id now).1 id := by
  by_cases hc : s.expiresAt < now ∨ (s.type = .onetime ∧ s.used = some true)
  · rw [validateSession_invalid st id now s hm hc] at hv
    cases hv
  · have hexp : ¬ s.expiresAt < now := fun ha => hc (Or.inl ha)
    have hu : ¬ s.used = some true := fun hu2 => hc (Or.inr ⟨ht, hu2⟩)
    rw [validateSession_valid_onetime st id now s hm ht hexp hu]
    exact ⟨{ s with used := some true }, mapGet_mapSet_self _ _ _, ht, rfl⟩

theorem runValidations_cons (st : ServerState) (q : String × Nat)
    (rest : List (String × Nat)) :
    runValidations st (q :: rest) =
      ((runValidations (validateSession st q.1 q.2).1 rest).1,
       (q, (validateSession st q.1 q.2).2) ::
         (runValidations (validateSession st q.1 q.2).1 rest).2) := rfl

theorem validCountFor_cons (id : String) (q : String × Nat) (r : ValidateResponse)
    (rest : List ((String × Nat) × ValidateResponse)) :
    validCountFor id ((q, r) :: rest) =
      validCountFor id rest + (if q.1 == id && r.valid then 1 else 0) := by
  simp [validCountFor, List.countP_cons]

theorem validCountFor_zero_of_consumed (id : String) (qs : List (String × Nat)) :
    ∀ st, consumedAt st id → validCountFor id (runValidations st qs).2 = 0 := by
  induction qs with
  | nil => intro st _; simp [runValidations, validCountFor]
  | cons q rest ih =>
    intro st h
    obtain ⟨s, hm, ht, hu⟩ := h
    by_cases hq : q.1 = id
    · subst hq
      have hinv := validateSession_invalid st q.1 q.2 s hm (Or.inr ⟨ht, hu⟩)
      rw [runValidations_cons, validCountFor_cons, hinv]
      simpa using ih st ⟨s, hm, ht, hu⟩
    · rw [runValidations_cons, validCountFor_cons]
      have hmm : mapGet (validateSession st q.1 q.2).1.sessions id
          = mapGet st.sessions id :=
        validateSession_other_id st q.1 id q.2 (fun he => hq he.symm)
      have hq2 : (q.1 == id) = false := by simp [hq]
      simp only [hq2, Bool.false_and, if_false, add_zero]
      exact ih _ ⟨s, hmm.trans hm, ht, hu⟩

theorem validCountFor_le_one_of_onetime (id : String) (qs : List (String × Nat)) :
    ∀ st, onetimeAt st id → validCountFor id (runValidations st qs).2 ≤ 1 := by
  induction qs with
  | nil => intro st _; simp [runValidations, validCountFor]
  | cons q rest ih =>
    intro st h
    obtain ⟨s, hm, ht⟩ := h
    by_cases hq : q.1 = id
    · subst hq
      rw [runValidations_cons, validCountFor_cons]
      cases hv : (validateSession st q.1 q.2).2.valid
      · have hst := validateSession_state_of_not_valid st q.1 q.2 hv
        rw [hst]
        simpa using ih st ⟨s, hm, ht⟩
      · have hcons := validateSession_consumes st q.1 q.2 s hm ht hv
        have hzero := validCountFor_zero_of_consumed q.1 rest _ hcons
        simp [hzero]
    · rw [runValidations_cons, validCountFor_cons]
      have hmm : mapGet (validateSession st q.1 q.2).1.sessions id
          = mapGet st.sessions id :=
        validateSession_other_id st q.1 id q.2 (fun he => hq he.symm)
      have hq2 : (q.1 == id) = false := by simp [hq]
      simp only [hq2, Bool.false_and, if_false, add_zero]
      exact ih _ ⟨s, hmm.trans hm, ht⟩

theorem getLast_append_singleton {α : Type} (l : List α) (a : α) :
    (l ++ [a]).getLast? = some a := by
  rw [List.getLast?_append_cons]
  rfl

theorem recordPayment_getLast (ps : List PaymentRecord) (e : PaymentRecord) :
    (recordPayment ps e).getLast? = some e := by
  simp only [recordPayment]
  by_cases h : MAX_PAYMENT_HISTORY < (ps ++ [e]).length
  · rw [if_pos h]
    cases ps with
    | nil => simp [MAX_PAYMENT_HISTORY] at h
    | cons b t =>
      rw [List.cons_append, List.drop_succ_cons, List.drop_zero]
      exact getLast_append_singleton t e
  · rw [if_neg h]
    exact getLast_append_singleton ps e

/-- C1 counterexample: a fresh SingleUse grant is validated once (Valid) at
time 500; a subsequent validation at time 2000, after the 1000er expiry, returns
the expiry reason, not AlreadyConsumed — so not every subsequent call returns
AlreadyConsumed. -/
theorem claim1_counterexample :
    (validateSession sampleState "s1" 500).2.valid = true ∧
    (validateSession (validateSession sampleState "s1" 500).1 "s1" 2000).2.error
      = some "Session expired" ∧
    ¬ (validateSession (validateSession sampleState "s1" 500).1 "s1" 2000).2.error
      = some "One-time access already used" := by decide

/-- C1 (amended): the first validation of an unexpired, unconsumed SingleUse
grant returns Valid and marks it used in the same operation; every subsequent
validation made while the grant is unexpired returns AlreadyConsumed
("One-time access already used"); and over any sequence of validations at most
one call on a given SingleUse grant id returns Valid. -/
theorem claim1_theorem :
    (∀ st id now s, mapGet st.sessions id = some s → s.type = .onetime →
       ¬ s.expiresAt < now → ¬ s.used = some true →
       (validateSession st id now).2.valid = true ∧
       mapGet (validateSession st id now).1.sessions id
         = some { s with used := some true }) ∧
    (∀ st id now s, mapGet st.sessions id = some s → s.type = .onetime →
       s.used = some true → ¬ s.expiresAt < now →
       (validateSession st id now).2.valid = false ∧
       (validateSession st id now).2.error = some "One-time access already used") ∧
    (∀ st id qs, onetimeAt st id →
       validCountFor id (runValidations st qs).2 ≤ 1) := by
  refine ⟨?_, ?_, ?_⟩
  · intro st id now s hm ht hexp hu
    rw [validateSession_valid_onetime st id now s hm ht hexp hu]
    exact ⟨rfl, mapGet_mapSet_self _ _ _⟩
  · intro st id now s hm ht hu hexp
    rw [validateSession_invalid st id now s hm (Or.inr ⟨ht, hu⟩)]
    exact ⟨rfl, by simp [hexp]⟩
  · intro st id qs h
    exact validCountFor_le_one_of_onetime id qs st h

/-- C1 witness: the amended theorem instantiated on the sample store. -/
theorem claim1_witness :
    (validateSession sampleState "s1" 500).2.valid = true ∧
    (validateSession consumedState "s1" 600).2.error
      = some "One-time access already used" ∧
    validCountFor "s1" (runValidations sampleState [("s1", 500), ("s1", 600)]).2 ≤ 1 :=
  ⟨(claim1_theorem.1 sampleState "s1" 500 sampleOnetime (by decide) (by decide)
      (by decide) (by decide)).1,
   (claim1_theorem.2.1 consumedState "s1" 600 consumedOnetime (by decide) (by decide)
      (by decide) (by decide)).2,
   claim1_theorem.2.2 sampleState "s1" [("s1", 500), ("s1", 600)]
     ⟨sampleOnetime, by decide, by decide⟩⟩

/-- C2: an unknown id yields HTTP 404 with valid:false and "Session not found",
leaving the store unchanged; a found-but-invalid grant (expired, or consumed
one-time) yields HTTP 200 with valid:false and a descriptive reason distinct
from the not-found message, also without mutation; a valid 24-hour grant
validates with no state change at all. -/
theorem claim2_theorem :
    (∀ st id now, mapGet st.sessions id = none →
       (validateSession st id now).1 = st ∧
       (validateSession st id now).2.status = 404 ∧
       (validateSession st id now).2.valid = false ∧
       (validateSession st id now).2.error = some "Session not found") ∧
    (∀ st id now s, mapGet st.sessions id = some s →
       (s.expiresAt < now ∨ (s.type = .onetime ∧ s.used = some true)) →
       (validateSession st id now).1 = st ∧
       (validateSession st id now).2.status = 200 ∧
       (validateSession st id now).2.valid = false ∧
       ((validateSession st id now).2.error = some "Session expired" ∨
        (validateSession st id now).2.error = some "One-time access already used") ∧
       ¬ (validateSession st id now).2.error = some "Session not found") ∧
    (∀ st id now s, mapGet st.sessions id = some s → s.type = .h24 →
       ¬ s.expiresAt < now →
       (validateSession st id now).2.valid = true ∧
       (validateSession st id now).1 = st) := by
  refine ⟨?_, ?_, ?_⟩
  · intro st id now h
    rw [validateSession_not_found st id now h]
    exact ⟨rfl, rfl, rfl, rfl⟩
  · intro st id now s hm hc
    rw [validateSession_invalid st id now s hm hc]
    refine ⟨rfl, rfl, rfl, ?_, ?_⟩
    · by_cases he : s.expiresAt < now
      · exact Or.inl (by simp [he])
      · exact Or.inr (by simp [he])
    · by_cases he : s.expiresAt < now <;> simp [he]
  · intro st id now s hm ht hexp
    rw [validateSession_valid_h24 st id now s hm ht hexp]
    exact ⟨rfl, rfl⟩

/-- C2 witness: the three outcomes instantiated on the sample stores. -/
theorem claim2_witness :
    (validateSession sampleState "zzz" 0).2.status = 404 ∧
    (validateSession consumedState "s1" 600).2.status = 200 ∧
    (validateSession sampleState "s2" 100).2.valid = true ∧
    (validateSession sampleState "s2" 100).1 = sampleState :=
  ⟨(claim2_theorem.1 sampleState "zzz" 0 (by decide)).2.1,
   (claim2_theorem.2.1 consumedState "s1" 600 consumedOnetime (by decide)
      (Or.inr (by decide))).2.1,
   (claim2_theorem.2.2 sampleState "s2" 100 sampleH24 (by decide) (by decide)
      (by decide)).1,
   (claim2_theorem.2.2 sampleState "s2" 100 sampleH24 (by decide) (by decide)
      (by decide)).2⟩

/-- C3: the ledger stays bounded by 100 — an append onto a full ledger drops
exactly the oldest (head) entry; any append either keeps all entries or drops
only the head, never rewriting surviving entries; and validation never touches
the ledger. -/
theorem claim3_theorem :
    (∀ ps e, ps.length ≤ 100 → (recordPayment ps e).length ≤ 100) ∧
    (∀ ps e, ps.length = 100 → recordPayment ps e = ps.tail ++ [e]) ∧
    (∀ ps e, recordPayment ps e = ps ++ [e] ∨ recordPayment ps e = ps.tail ++ [e]) ∧
    (∀ st id now, (validateSession st id now).1.payments = st.payments) := by
  refine ⟨?_, ?_, ?_, validateSession_payments⟩
  · intro ps e h
    simp only [recordPayment, MAX_PAYMENT_HISTORY]
    by_cases hl : 100 < (ps ++ [e]).length
    · rw [if_pos hl]
      simp only [List.length_drop, List.length_append, List.length_singleton]
      omega
    · rw [if_neg hl]
      simp only [List.length_append, List.length_singleton] at hl ⊢
      omega
  · intro ps e h
    cases ps with
    | nil => simp at h
    | cons b t =>
      simp only [List.length_cons] at h
      simp only [recordPayment, MAX_PAYMENT_HISTORY]
      have hl : 100 < ((b :: t) ++ [e]).length := by
        simp only [List.length_append, List.length_cons, List.length_singleton]
        omega
      rw [if_pos hl]
      simp
  · intro ps e
    simp only [recordPayment, MAX_PAYMENT_HISTORY]
    by_cases hl : 100 < (ps ++ [e]).length
    · right
      rw [if_pos hl]
      cases ps with
      | nil => simp at hl
      | cons b t => simp
    · left
      rw [if_neg hl]

/-- C3 witness: appending to a full 100-entry ledger keeps the bound and drops
the oldest entry. -/
theorem claim3_witness :
    (recordPayment fullLedger samplePayment2).length ≤ 100 ∧
    recordPayment fullLedger samplePayment2 = fullLedger.tail ++ [samplePayment2] :=
  ⟨claim3_theorem.1 fullLedger samplePayment2 (by simp [fullLedger]),
   claim3_theorem.2.1 fullLedger samplePayment2 (by simp [fullLedger])⟩

/-- C7: every grant created by a purchase has `expiresAt = createdAt + lifetime`
exactly — 24 hours (86,400,000 ms) for a 24-hour session, 5 minutes
(300,000 ms) for a one-time session. -/
theorem claim7_theorem :
    ∀ st parsed sid now,
      (∃ s, mapGet (paySession st parsed sid now).1.sessions sid = some s ∧
         s.type = .h24 ∧ s.createdAt = now ∧
         s.expiresAt = s.createdAt + 24 * 60 * 60 * 1000 ∧
         s.expiresAt - s.createdAt = 24 * 60 * 60 * 1000) ∧
      (∃ s, mapGet (payOnetime st parsed sid now).1.sessions sid = some s ∧
         s.type = .onetime ∧ s.createdAt = now ∧
         s.expiresAt = s.createdAt + 5 * 60 * 1000 ∧
         s.expiresAt - s.createdAt = 5 * 60 * 1000) := by
  intro st parsed sid now
  constructor
  · exact ⟨_, mapGet_mapSet_self _ _ _, rfl, rfl, rfl,
      by show now + 24 * 60 * 60 * 1000 - now = 24 * 60 * 60 * 1000; omega⟩
  · exact ⟨_, mapGet_mapSet_self _ _ _, rfl, rfl, rfl,
      by show now + 5 * 60 * 1000 - now = 5 * 60 * 1000; omega⟩

/-- C8: a purchase succeeds for every body-parse outcome — an unparsable body
(`none`) falls back to the empty payload — and, in the same operation, the
grant is stored under the fresh id and a ledger entry for it is appended at
the tail of the payment history. -/
theorem claim8_theorem :
    ∀ st parsed sid now,
      parsePaymentRequest (T := PaymentRequestPayload) none {} = {} ∧
      (paySession st parsed sid now).2.success = true ∧
      (payOnetime st parsed sid now).2.success = true ∧
      (∃ s, mapGet (paySession st parsed sid now).1.sessions sid = some s) ∧
      (∃ s, mapGet (payOnetime st parsed sid now).1.sessions sid = some s) ∧
      (∃ e, (paySession st parsed sid now).1.payments
              = recordPayment st.payments e ∧
            e.id = sid ∧ e.createdAt = now ∧
            ((paySession st parsed sid now).1.payments).getLast? = some e) ∧
      (∃ e, (payOnetime st parsed sid now).1.payments
              = recordPayment st.payments e ∧
            e.id = sid ∧ e.createdAt = now ∧
            ((payOnetime st parsed sid now).1.payments).getLast? = some e) := by
  intro st parsed sid now
  refine ⟨rfl, rfl, rfl,
    ⟨_, mapGet_mapSet_self _ _ _⟩, ⟨_, mapGet_mapSet_self _ _ _⟩,
    ⟨_, rfl, rfl, rfl, recordPayment_getLast _ _⟩,
    ⟨_, rfl, rfl, rfl, recordPayment_getLast _ _⟩⟩

/-- C9: validation's only possible mutation is flipping `used` on the single
looked-up grant, and only when that grant is an unexpired, not-yet-consumed
one-time grant; the ledger, every other grant, and (in every other case) the
whole state are untouched — in particular an expired one-time grant is never
marked used. -/
theorem claim9_theorem :
    ∀ st id now,
      (validateSession st id now).1.payments = st.payments ∧
      (∀ id2, id2 ≠ id →
        mapGet (validateSession st id now).1.sessions id2 = mapGet st.sessions id2) ∧
      (∀ s, mapGet st.sessions id = some s →
        (s.type = .onetime ∧ ¬ s.expiresAt < now ∧ ¬ s.used = some true →
          mapGet (validateSession st id now).1.sessions id
            = some { s with used := some true }) ∧
        (¬ (s.type = .onetime ∧ ¬ s.expiresAt < now ∧ ¬ s.used = some true) →
          (validateSession st id now).1 = st)) ∧
      (mapGet st.sessions id = none → (validateSession st id now).1 = st) := by
  intro st id now
  refine ⟨validateSession_payments st id now,
    fun id2 h => validateSession_other_id st id id2 now h, ?_, ?_⟩
  · intro s hm
    constructor
    · rintro ⟨ht, hexp, hu⟩
      rw [validateSession_valid_onetime st id now s hm ht hexp hu]
      exact mapGet_mapSet_self _ _ _
    · intro hn
      by_cases hc : s.expiresAt < now ∨ (s.type = .onetime ∧ s.used = some true)
      · rw [validateSession_invalid st id now s hm hc]
      · have hexp : ¬ s.expiresAt < now := fun ha => hc (Or.inl ha)
        by_cases ht : s.type = .onetime
        · have hu : ¬ s.used = some true := fun h2 => hc (Or.inr ⟨ht, h2⟩)
          exact absurd ⟨ht, hexp, hu⟩ hn
        · have h24 : s.type = .h24 := by
            cases hty : s.type with
            | h24 => rfl
            | onetime => exact absurd hty ht
          rw [validateSession_valid_h24 st id now s hm h24 hexp]
  · intro h
    rw [validateSession_not_found st id now h]

/-- C9 witness: the frame conditions instantiated on the sample store — the
consuming call leaves the ledger and the other grant alone, and an expired
one-time grant is left entirely unchanged. -/
theorem claim9_witness :
    (validateSession sampleState "s1" 500).1.payments = sampleState.payments ∧
    mapGet (validateSession sampleState "s1" 500).1.sessions "s2"
      = mapGet sampleState.sessions "s2" ∧
    mapGet (validateSession sampleState "s1" 500).1.sessions "s1"
      = some { sampleOnetime with used := some true } ∧
    (validateSession sampleState "s1" 2000).1 = sampleState :=
  ⟨(claim9_theorem sampleState "s1" 500).1,
   (claim9_theorem sampleState "s1" 500).2.1 "s2" (by decide),
   ((claim9_theorem sampleState "s1" 500).2.2.1 sampleOnetime (by decide)).1
     ⟨by decide, by decide, by decide⟩,
   ((claim9_theorem sampleState "s1" 2000).2.2.1 sampleOnetime (by decide)).2
     (by decide)⟩

/-- C10: when a found grant is both expired and already consumed, the expiry
reason wins — the response says "Session expired", not the already-used
message. -/
theorem claim10_theorem :
    ∀ st id now s, mapGet st.sessions id = some s →
      s.expiresAt < now → s.type = .onetime → s.used = some true →
      (validateSession st id now).2.error = some "Session expired" ∧
      ¬ (validateSession st id now).2.error = some "One-time access already used" := by
  intro st id now s hm he ht hu
  rw [validateSession_invalid st id now s hm (Or.inl he)]
  constructor
  · simp [he]
  · simp [he]

/-- C10 witness: the consumed one-time grant queried after expiry reports
"Session expired". -/
theorem claim10_witness :
    (validateSession consumedState "s1" 2000).2.error = some "Session expired" :=
  (claim10_theorem consumedState "s1" 2000 consumedOnetime (by decide) (by decide)
    (by decide) (by decide)).1

theorem connectAttempt_requests_accounts (eth : InjectedEthereum) (p : ProviderEnv)
    (hp : selectProvider eth = some p) :
    RpcCall.ethRequestAccounts ∈ (connectAttempt eth).1 := by
  simp only [connectAttempt, hp]
  cases hra : p.requestAccounts with
  | error e => simp
  | ok accounts =>
    cases accounts with
    | nil => simp
    | cons a0 rest =>
      cases hc : p.chainIdResult with
      | error e2 => simp
      | ok cid =>
        by_cases hcid : cid = MONAD_CHAIN_ID_HEX
        · simp [hcid]
        · simp only [hcid, if_false]
          cases hsw : p.switchChain with
          | ok u => simp
          | error se =>
            by_cases h1 : se.code = some 4902
            · cases had : p.addChain with
              | ok u => simp [h1]
              | error ae => simp [h1]
            · by_cases h2 : se.code = some 4001
              · simp [h1, h2]
              · simp [h1, h2]

/-- C4 counterexample: `connectWallet` invoked while `isConnecting` is already
true (a previous attempt in flight) still issues `eth_requestAccounts`; two
overlapping attempts therefore send the authorization request twice. -/
theorem claim4_counterexample :
    countCalls .ethRequestAccounts
      (connectWallet (.single okProvider) { isConnecting := true }).2 = 1 ∧
    countCalls .ethRequestAccounts
      ((connectWallet (.single okProvider) { isConnecting := true }).2 ++
       (connectWallet (.single okProvider) { isConnecting := true }).2) = 2 := by
  decide

/-- C4 (amended): `connectWallet` has no reentrancy guard — its behaviour is
independent of the connection state at call time (in particular of
`isConnecting`), and whenever a provider is present it issues
`eth_requestAccounts`; duplicate-request rejection is left to the provider
(whose code −32002 "already in progress" error is only mapped to a message). -/
theorem claim4_theorem :
    (∀ eth s s2, connectWallet eth s = connectWallet eth s2) ∧
    (∀ eth p s, selectProvider eth = some p →
       RpcCall.ethRequestAccounts ∈ (connectWallet eth s).2) := by
  constructor
  · intro eth s s2
    rfl
  · intro eth p s hp
    exact connectAttempt_requests_accounts eth p hp

/-- C4 witness: with a provider present, a call started while `isConnecting`
is true issues the authorization request. -/
theorem claim4_witness :
    RpcCall.ethRequestAccounts ∈
      (connectWallet (.single okProvider) { isConnecting := true }).2 :=
  claim4_theorem.2 (.single okProvider) okProvider { isConnecting := true } rfl

/-- C5 counterexample: provider on the wrong chain, switch rejected with the
unrecognized-chain code 4902, add accepted — the request trace registers the
network but contains exactly one `wallet_switchEthereumChain`, i.e. the switch
is never retried after the add. -/
theorem claim5_counterexample :
    countCalls .walletAddEthereumChain
      (connectWallet (.single unknownChainProvider) {}).2 = 1 ∧
    countCalls .walletSwitchEthereumChain
      (connectWallet (.single unknownChainProvider) {}).2 = 1 := by
  decide

/-- C5 (amended): when the current chain differs from the expected one a switch
is requested; if the switch fails with the unrecognized-chain error (code 4902)
the network definition is registered via `wallet_addEthereumChain`, and on
successful registration the connection proceeds directly — the switch is not
retried. -/
theorem claim5_theorem :
    ∀ eth p s a0 rest cid se, selectProvider eth = some p →
      p.requestAccounts = .ok (a0 :: rest) →
      p.chainIdResult = .ok cid → ¬ cid = MONAD_CHAIN_ID_HEX →
      p.switchChain = .error se → se.code = some 4902 →
      p.addChain = .ok () →
      (connectWallet eth s).2 =
        [.ethRequestAccounts, .ethChainId, .walletSwitchEthereumChain,
         .walletAddEthereumChain] ∧
      (connectAttempt eth).2 = .ok a0 := by
  intro eth p s a0 rest cid se hp hra hc hcid hsw hcode had
  have h : connectAttempt eth =
      ([.ethRequestAccounts, .ethChainId, .walletSwitchEthereumChain,
        .walletAddEthereumChain], .ok a0) := by
    simp [connectAttempt, hp, hra, hc, hcid, hsw, hcode, had]
  exact ⟨by simp [connectWallet, h], by simp [h]⟩

/-- C5 witness: the amended behaviour on the concrete unknown-chain provider. -/
theorem claim5_witness :
    (connectWallet (.single unknownChainProvider) {}).2 =
      [.ethRequestAccounts, .ethChainId, .walletSwitchEthereumChain,
       .walletAddEthereumChain] ∧
    (connectAttempt (.single unknownChainProvider)).2 = .ok "0xabc" :=
  claim5_theorem (.single unknownChainProvider) unknownChainProvider {} "0xabc" []
    "0x1" { code := some 4902 } rfl rfl rfl (by decide) rfl rfl rfl

/-- C6 counterexample: with zero injected providers (`window.ethereum`
undefined), `connectWallet` still sets `isConnecting` to true — the flag is set
during the call, contrary to the claim. -/
theorem claim6_counterexample :
    SetterCall.setIsConnecting true ∈ (connectWallet .undef {}).1 := by decide

/-- C6 (amended): with zero providers present, `connectWallet` issues no RPC
request and fails with the no-provider error ("请安装 MetaMask 或其他以太坊钱包扩展"),
leaving the connection unbound; but `isConnecting` is set to true at the start
of the call and only reset to false in the finally block, so the flag is
transiently set even in this case. -/
theorem claim6_theorem :
    ∀ s : WalletState,
      (connectWallet .undef s).2 = [] ∧
      (applySetters s (connectWallet .undef s).1).error
        = some "请安装 MetaMask 或其他以太坊钱包扩展" ∧
      (applySetters s (connectWallet .undef s).1).isConnecting = false ∧
      (applySetters s (connectWallet .undef s).1).isConnected = s.isConnected ∧
      (applySetters s (connectWallet .undef s).1).address = s.address ∧
      SetterCall.setIsConnecting true ∈ (connectWallet .undef s).1 := by
  intro s
  refine ⟨rfl, ?_, ?_, ?_, ?_, ?_⟩ <;>
    simp [connectWallet, connectAttempt, selectProvider, applySetters, applySetter]
